import Mathlib

/-!
Verification of the mmap-rs memory-mapping crate: a shallow embedding in
Lean 4 of the crate's three platform backends (the POSIX backend in its
Linux configuration, the Windows backend, and the Linux `/proc/<pid>/maps`
reader), together with theorems settling the specification claims.

Pure functions of the source are translated into Lean functions; stateful
operations are modelled by explicit state passing, with an oracle record
supplying the outcome of each OS primitive and a call trace recording which
primitives were invoked and with which arguments.
-/

namespace MmapRs

/-! ## Shared flag model

The flag-set types `MmapFlags`, `UnsafeMmapFlags` and `PageSize` are
declared in the crate root, which is not among the provided source files;
their members are fixed by the specification and by every use site in the
backends. Modelled from the spec: safe flag set
{COPY_ON_WRITE, POPULATE, NO_RESERVE, HUGE_PAGES, LOCKED, STACK,
NO_CORE_DUMP}, unsafe flag set {MAP_FIXED, JIT}, and the huge-page size
classes 64K, 512K, 1M, 2M, 8M, 16M, 32M, 256M, 512M, 1G, 2G, 16G. -/

/-- Safe mapping option bit set (`MmapFlags`), one Bool per flag bit. -/
structure MmapFlags where
  copyOnWrite : Bool
  populate : Bool
  noReserve : Bool
  hugePages : Bool
  locked : Bool
  stack : Bool
  noCoreDump : Bool
deriving DecidableEq, Repr

def MmapFlags.empty : MmapFlags :=
  ⟨false, false, false, false, false, false, false⟩

/-- Unsafe mapping option bit set (`UnsafeMmapFlags`). -/
structure UnsafeMmapFlags where
  mapFixed : Bool
  jit : Bool
deriving DecidableEq, Repr

def UnsafeMmapFlags.empty : UnsafeMmapFlags := ⟨false, false⟩

/-- The singleton unsafe flag set `UnsafeMmapFlags::JIT`. -/
def UnsafeMmapFlags.JIT : UnsafeMmapFlags := ⟨false, true⟩

/-- Huge-page size classes (`PageSize`), the fixed enumeration of the spec. -/
inductive PageSize where
  | _64K | _512K | _1M | _2M | _8M | _16M | _32M | _256M | _512M
  | _1G | _2G | _16G
deriving DecidableEq, Repr

/-- The crate's error type (`Error` in `error.rs`): an "unsafe flag
needed" variant carrying the required flag set, an `std::io::Error`
variant, and (on unix) a `nix::Error` variant; the two OS variants carry
the native error code. -/
inductive Error where
  | unsafeFlagNeeded (flags : UnsafeMmapFlags)
  | ioError (code : Int)
  | nixError (code : Int)
deriving DecidableEq, Repr

/-! ## Memory-area record model (`areas.rs` vocabulary)

`Protection`, `ShareMode` and `MemoryArea` are declared in `areas.rs`,
not among the provided source files. Modelled from the spec: protection is
a read/write/execute bit combination, share mode is private | shared |
copy-on-write, and a record carries the address range, protection, share
mode and optional (path, offset). -/

/-- Protection bit set: read/write/execute bits. -/
structure Protection where
  read : Bool
  write : Bool
  exec : Bool
deriving DecidableEq, Repr

def Protection.empty : Protection := ⟨false, false, false⟩
def Protection.READ : Protection := ⟨true, false, false⟩
def Protection.WRITE : Protection := ⟨false, true, false⟩
def Protection.EXECUTE : Protection := ⟨false, false, true⟩

/-- Bitwise union of protection sets (`|` on the bitflags type). -/
def Protection.union (a b : Protection) : Protection :=
  ⟨a.read || b.read, a.write || b.write, a.exec || b.exec⟩

inductive ShareMode where
  | Shared
  | Private
  | CopyOnWrite
deriving DecidableEq, Repr

/-- A parsed memory region record (`MemoryArea`): the address range
`[start, stop)`, the protection bits, the (possibly reclassified) share
mode and, when file-backed, the path with its file offset. -/
structure MemoryArea where
  start : Nat
  stop : Nat
  protection : Protection
  shareMode : ShareMode
  path : Option (String × Nat)
deriving DecidableEq, Repr

/-! ## The `/proc/<pid>/maps` line parser (`os_impl/linux.rs`)

The source uses the `combine` parser library. Each sub-parser is embedded
as a function `List Char → Option (α × List Char)` returning the parsed
value and the unconsumed input; `none` is a parse failure. The combinators
used by the source (`many1` over single-character `satisfy` parsers,
single tokens, `or` of single-character parsers, `skip_many(space)`,
`optional` of a parser that cannot fail after consuming) are all
faithfully rendered by greedy longest-prefix functions, since none of
these ever needs backtracking after consuming input. -/

/-- The numeric value of a hexadecimal digit, `none` for other characters
(`combine::parser::char::hex_digit` accepts exactly `[0-9a-fA-F]`). -/
def hexDigitVal (c : Char) : Option Nat :=
  if 0x30 ≤ c.toNat ∧ c.toNat ≤ 0x39 then some (c.toNat - 0x30)
  else if 0x61 ≤ c.toNat ∧ c.toNat ≤ 0x66 then some (c.toNat - 0x61 + 10)
  else if 0x41 ≤ c.toNat ∧ c.toNat ≤ 0x46 then some (c.toNat - 0x41 + 10)
  else none

def isHexDigitChar (c : Char) : Bool :=
  (hexDigitVal c).isSome

/-- Rust's `char::is_whitespace` (the Unicode White_Space property), the
predicate behind `combine::parser::char::space`. -/
def rustIsWhitespace (c : Char) : Bool :=
  c.toNat = 0x09 || c.toNat = 0x0a || c.toNat = 0x0b || c.toNat = 0x0c
    || c.toNat = 0x0d || c.toNat = 0x20 || c.toNat = 0x85
    || c.toNat = 0xa0 || c.toNat = 0x1680
    || (0x2000 ≤ c.toNat && c.toNat ≤ 0x200a)
    || c.toNat = 0x2028 || c.toNat = 0x2029 || c.toNat = 0x202f
    || c.toNat = 0x205f || c.toNat = 0x3000

/-- `hex_digit1()`: `many1(hex_digit())`, the longest nonempty prefix of
hexadecimal digits. -/
def pHexDigits1 (cs : List Char) : Option (List Char × List Char) :=
  let ds := cs.takeWhile isHexDigitChar
  if ds.isEmpty then none else some (ds, cs.dropWhile isHexDigitChar)

/-- The value denoted by a hexadecimal digit string (most significant
digit first), as accumulated by `from_str_radix(s, 16)`. -/
def hexVal (ds : List Char) : Nat :=
  ds.foldl (fun a c => 16 * a + ((hexDigitVal c).getD 0)) 0

/-- `hex_digit1().and_then(|s| T::from_str_radix(s, 16))` for a `w`-bit
unsigned integer type `T`: parse a nonempty digit run and fail the parser
when the value overflows `T` (64-bit `usize`/`u64`, 8-bit `u8`). -/
def pHexNum (w : Nat) (cs : List Char) : Option (Nat × List Char) :=
  match pHexDigits1 cs with
  | none => none
  | some (ds, rest) =>
    if hexVal ds < 2 ^ w then some (hexVal ds, rest) else none

/-- `token(c)` / `char(c)`: one exact character. -/
def pToken (c : Char) (cs : List Char) : Option (Unit × List Char) :=
  match cs with
  | d :: rest => if d = c then some ((), rest) else none
  | [] => none

/-- `spaces()`: `skip_many(space())`, consuming any run of whitespace. -/
def pSpaces (cs : List Char) : List Char :=
  cs.dropWhile rustIsWhitespace

/-- `address_range()`: two `usize` hexadecimal values joined by `-`. -/
def pAddressRange (cs : List Char) : Option ((Nat × Nat) × List Char) :=
  match pHexNum 64 cs with
  | none => none
  | some (start, cs) =>
    match pToken '-' cs with
    | none => none
    | some (_, cs) =>
      match pHexNum 64 cs with
      | none => none
      | some (stop, cs) => some ((start, stop), cs)

/-- One permission position: the flag character `yes` contributes `prot`,
`'-'` contributes the empty set, anything else fails
(`or(char(yes).map(..), char('-').map(..))`). -/
def pPermChar (yes : Char) (prot : Protection) (cs : List Char) :
    Option (Protection × List Char) :=
  match cs with
  | c :: rest =>
    if c = yes then some (prot, rest)
    else if c = '-' then some (Protection.empty, rest)
    else none
  | [] => none

/-- The share position: `'s'` is `Shared`, `'p'` is `Private`
(`or(char('s').map(..), char('p').map(..))`). -/
def pShareChar (cs : List Char) : Option (ShareMode × List Char) :=
  match cs with
  | c :: rest =>
    if c = 's' then some (ShareMode.Shared, rest)
    else if c = 'p' then some (ShareMode.Private, rest)
    else none
  | [] => none

/-- `permissions()`: the four fixed flag characters `rwxs/p`, combined
with bitwise union. -/
def pPermissions (cs : List Char) :
    Option ((Protection × ShareMode) × List Char) :=
  match pPermChar 'r' Protection.READ cs with
  | none => none
  | some (r, cs) =>
    match pPermChar 'w' Protection.WRITE cs with
    | none => none
    | some (w, cs) =>
      match pPermChar 'x' Protection.EXECUTE cs with
      | none => none
      | some (x, cs) =>
        match pShareChar cs with
        | none => none
        | some (s, cs) =>
          some (((r.union w).union x, s), cs)

/-- `device_id()`: two `u8` hexadecimal values joined by `:`. -/
def pDeviceId (cs : List Char) : Option ((Nat × Nat) × List Char) :=
  match pHexNum 8 cs with
  | none => none
  | some (major, cs) =>
    match pToken ':' cs with
    | none => none
    | some (_, cs) =>
      match pHexNum 8 cs with
      | none => none
      | some (minor, cs) => some ((major, minor), cs)

/-- `path()`: `many1(satisfy(|c| c != '\n'))` collected into a path. -/
def pPath (cs : List Char) : Option (String × List Char) :=
  let ds := cs.takeWhile (fun c => c ≠ '\n')
  if ds.isEmpty then none
  else some (String.mk ds, cs.dropWhile (fun c => c ≠ '\n'))

/-- The raw field tuple of one `memory_region()` parse, before the closure
that builds the record: address range, protection, raw share mode, file
offset (`u64`), device id, and the optional path. The inode field is
parsed (`hex_digit1()`) and discarded, exactly as in the source. -/
def pMemoryRegionRaw (cs : List Char) :
    Option (((Nat × Nat) × Protection × ShareMode × Nat × (Nat × Nat) ×
      Option String) × List Char) :=
  match pAddressRange cs with
  | none => none
  | some (range, cs) =>
    let cs := pSpaces cs
    match pPermissions cs with
    | none => none
    | some ((protection, shareMode), cs) =>
      let cs := pSpaces cs
      match pHexNum 64 cs with
      | none => none
      | some (offset, cs) =>
        let cs := pSpaces cs
        match pDeviceId cs with
        | none => none
        | some (dev, cs) =>
          let cs := pSpaces cs
          match pHexDigits1 cs with
          | none => none
          | some (_, cs) =>
            let cs := pSpaces cs
            match pPath cs with
            | none => some ((range, protection, shareMode, offset, dev, none), cs)
            | some (p, cs) =>
              some ((range, protection, shareMode, offset, dev, some p), cs)

/-- `memory_region()`: the raw tuple mapped through the record-building
closure, which reclassifies a file-backed private region as copy-on-write
and attaches the offset to the path. -/
def memoryRegion (cs : List Char) : Option (MemoryArea × List Char) :=
  match pMemoryRegionRaw cs with
  | none => none
  | some ((range, protection, shareMode, offset, _, path), cs) =>
    let shareMode :=
      if path.isSome ∧ shareMode = ShareMode.Private then
        ShareMode.CopyOnWrite
      else
        shareMode
    some ({ start := range.1, stop := range.2, protection := protection,
            shareMode := shareMode,
            path := path.map (fun p => (p, offset)) }, cs)

/-- The iterator state of `MemoryAreas`: the remaining results of the
underlying `lines()` reader, each either an I/O error (carrying the native
code) or a line's text. -/
def AreasState := List (Except Int String)

/-- `MemoryAreas::next()`: take the next line result; an I/O error is
yielded as an error item, a line that parses yields the record, and a line
that fails to parse yields no item. In every case the underlying reader
has advanced past the line. -/
def areasNext (st : AreasState) :
    Option (Except Error MemoryArea) × AreasState :=
  match st with
  | [] => (none, [])
  | Except.error e :: rest => (some (Except.error (Error.ioError e)), rest)
  | Except.ok line :: rest =>
    match memoryRegion line.data with
    | some (region, _) => (some (Except.ok region), rest)
    | none => (none, rest)

/-- A `/proc/<pid>/maps` line assembled from the grammar's fields: a start
and an end address (hexadecimal digit runs), the four permission
characters, a hexadecimal offset run, a `major:minor` device id of two
hexadecimal runs, an inode run, and an arbitrary suffix `pa` standing for
the optional path part. Instantiating the digit runs with nonempty
hexadecimal strings produces exactly the lines matching the documented
textual grammar. -/
def mkMapsLine (sa ea : List Char) (p1 p2 p3 p4 : Char)
    (od ma mi ino pa : List Char) : List Char :=
  sa ++ '-' :: (ea ++ ' ' :: p1 :: p2 :: p3 :: p4 :: ' '
    :: (od ++ ' ' :: (ma ++ ':' :: (mi ++ ' ' :: (ino ++ pa)))))

/-! ## The POSIX backend (`os_impl/unix.rs`), Linux configuration

The backend is compiled per-platform with `#[cfg]` blocks; the embedding
fixes the `target_os = "linux"` configuration (64-bit), the platform the
crate's own introspection facility targets. OS primitives are black boxes:
an oracle record supplies each primitive's outcome, and every operation
also returns the list of primitive calls it performed, with their
arguments. Operations on a live mapping additionally return the mapping
state they leave behind, so that frame effects are statable. -/

namespace Unix

/-- `nix::sys::mman::ProtFlags`: the POSIX page-protection bit set.
`PROT_NONE` is the empty set. -/
structure ProtFlags where
  read : Bool
  write : Bool
  exec : Bool
deriving DecidableEq, Repr

def PROT_NONE : ProtFlags := ⟨false, false, false⟩
def PROT_READ : ProtFlags := ⟨true, false, false⟩
def PROT_READ_WRITE : ProtFlags := ⟨true, true, false⟩
def PROT_READ_EXEC : ProtFlags := ⟨true, false, true⟩
def PROT_READ_WRITE_EXEC : ProtFlags := ⟨true, true, true⟩

/-- The `MAP_HUGE_<size>` sub-flag value for each huge-page size class:
the base-2 logarithm of the page size shifted into the kernel's huge-page
size-class field (bit 26), as in the Linux ABI. -/
def hugeSizeFlag : PageSize → Nat
  | PageSize._64K => 16 <<< 26
  | PageSize._512K => 19 <<< 26
  | PageSize._1M => 20 <<< 26
  | PageSize._2M => 21 <<< 26
  | PageSize._8M => 23 <<< 26
  | PageSize._16M => 24 <<< 26
  | PageSize._32M => 25 <<< 26
  | PageSize._256M => 28 <<< 26
  | PageSize._512M => 29 <<< 26
  | PageSize._1G => 30 <<< 26
  | PageSize._2G => 31 <<< 26
  | PageSize._16G => 34 <<< 26

/-- The native `mmap` creation flag set assembled by
`MmapOptions::flags()` in its Linux configuration: one field per native
flag bit, plus the huge-page size-class field (`0` when no
`MAP_HUGE_<size>` sub-flag is present). -/
structure MapFlags where
  anonymous : Bool
  mapShared : Bool
  mapPrivate : Bool
  populate : Bool
  noReserve : Bool
  hugetlb : Bool
  hugeSize : Nat
  locked : Bool
  stack : Bool
  fixed : Bool
deriving DecidableEq, Repr

def MapFlags.empty : MapFlags :=
  ⟨false, false, false, false, false, false, 0, false, false, false⟩

/-- The derived per-mapping flag record of the unix backend (`Flags` in
`unix.rs`): only the JIT bit. -/
structure UFlags where
  jit : Bool
deriving DecidableEq, Repr

/-- A live unix mapping (`Mmap` in `unix.rs`): the optionally owned file
(kept as its raw descriptor), the base pointer, the size in bytes and the
derived flag record. -/
structure Mmap where
  file : Option Nat
  ptr : Nat
  size : Nat
  flags : UFlags
deriving DecidableEq, Repr

/-- One OS primitive invocation of the unix backend, with its arguments. -/
inductive UnixCall where
  | mmapCall (addr : Option Nat) (len : Nat) (prot : ProtFlags)
      (flags : MapFlags) (fd : Int) (offset : Nat)
  | madviseCall (addr len : Nat)
  | mlockCall (addr len : Nat)
  | munlockCall (addr len : Nat)
  | msyncCall (addr len : Nat) (sync : Bool)
  | mprotectCall (addr len : Nat) (prot : ProtFlags)
  | clearCacheCall (start stop : Nat)
  | munmapCall (addr len : Nat)
deriving DecidableEq, Repr

/-- The OS oracle for the unix backend: the outcome each primitive would
report, an `Except` carrying the native `nix` error code on failure. -/
structure UnixOracle where
  mmapRes : Except Int Nat
  madviseRes : Except Int Unit
  mprotectRes : Except Int Unit
  msyncRes : Except Int Unit
  mlockRes : Except Int Unit
  munlockRes : Except Int Unit

/-- 64-bit `usize` subtraction in release mode: wraps modulo `2^64`
(`range.end - range.start` as the source computes it). -/
def usizeSub (a b : Nat) : Nat :=
  (a + 2 ^ 64 - b) % 2 ^ 64

/-- `Mmap::lock`: `mlock` over the whole mapping. -/
def Mmap.lock (m : Mmap) (orc : UnixOracle) :
    Except Error Unit × Mmap × List UnixCall :=
  match orc.mlockRes with
  | Except.ok _ => (Except.ok (), m, [UnixCall.mlockCall m.ptr m.size])
  | Except.error e =>
    (Except.error (Error.nixError e), m, [UnixCall.mlockCall m.ptr m.size])

/-- `Mmap::unlock`: `munlock` over the whole mapping. -/
def Mmap.unlock (m : Mmap) (orc : UnixOracle) :
    Except Error Unit × Mmap × List UnixCall :=
  match orc.munlockRes with
  | Except.ok _ => (Except.ok (), m, [UnixCall.munlockCall m.ptr m.size])
  | Except.error e =>
    (Except.error (Error.nixError e), m, [UnixCall.munlockCall m.ptr m.size])

/-- `Mmap::flush`: `msync(ptr + start, end - start, MS_SYNC)`,
unconditionally. -/
def Mmap.flush (m : Mmap) (r : Nat × Nat) (orc : UnixOracle) :
    Except Error Unit × Mmap × List UnixCall :=
  let call := UnixCall.msyncCall (m.ptr + r.1) (usizeSub r.2 r.1) true
  match orc.msyncRes with
  | Except.ok _ => (Except.ok (), m, [call])
  | Except.error e => (Except.error (Error.nixError e), m, [call])

/-- `Mmap::flush_async`: `msync(ptr + start, end - start, MS_ASYNC)`,
unconditionally — the unix backend has no empty-range early return. -/
def Mmap.flush_async (m : Mmap) (r : Nat × Nat) (orc : UnixOracle) :
    Except Error Unit × Mmap × List UnixCall :=
  let call := UnixCall.msyncCall (m.ptr + r.1) (usizeSub r.2 r.1) false
  match orc.msyncRes with
  | Except.ok _ => (Except.ok (), m, [call])
  | Except.error e => (Except.error (Error.nixError e), m, [call])

/-- `Mmap::flush_icache` (non-iOS configuration): `__clear_cache` over the
mapping; it reports no failure. -/
def Mmap.flush_icache (m : Mmap) :
    Except Error Unit × Mmap × List UnixCall :=
  (Except.ok (), m, [UnixCall.clearCacheCall m.ptr (m.ptr + m.size)])

/-- `Mmap::do_make`: one `mprotect` call over the whole mapping. -/
def Mmap.do_make (m : Mmap) (protect : ProtFlags) (orc : UnixOracle) :
    Except Error Unit × Mmap × List UnixCall :=
  let call := UnixCall.mprotectCall m.ptr m.size protect
  match orc.mprotectRes with
  | Except.ok _ => (Except.ok (), m, [call])
  | Except.error e => (Except.error (Error.nixError e), m, [call])

def Mmap.make_none (m : Mmap) (orc : UnixOracle) :
    Except Error Unit × Mmap × List UnixCall :=
  m.do_make PROT_NONE orc

def Mmap.make_read_only (m : Mmap) (orc : UnixOracle) :
    Except Error Unit × Mmap × List UnixCall :=
  m.do_make PROT_READ orc

def Mmap.make_exec (m : Mmap) (orc : UnixOracle) :
    Except Error Unit × Mmap × List UnixCall :=
  m.do_make PROT_READ_EXEC orc

def Mmap.make_mut (m : Mmap) (orc : UnixOracle) :
    Except Error Unit × Mmap × List UnixCall :=
  m.do_make PROT_READ_WRITE orc

/-- `Mmap::make_exec_mut`: the JIT gate, then `mprotect` to
read+write+exec. -/
def Mmap.make_exec_mut (m : Mmap) (orc : UnixOracle) :
    Except Error Unit × Mmap × List UnixCall :=
  if ¬ m.flags.jit then
    (Except.error (Error.unsafeFlagNeeded UnsafeMmapFlags.JIT), m, [])
  else
    m.do_make PROT_READ_WRITE_EXEC orc

/-- The unix mapping builder (`MmapOptions` in `unix.rs`): address hint,
optional backing file (raw descriptor) with offset, size, the two portable
flag sets and the optional huge-page size class. -/
structure MmapOptions where
  address : Option Nat
  file : Option (Nat × Nat)
  size : Nat
  flags : MmapFlags
  unsafeFlags : UnsafeMmapFlags
  pageSize : Option PageSize
deriving Repr

/-- `MmapOptions::new(size)`. -/
def MmapOptions.new (size : Nat) : MmapOptions :=
  { address := none, file := none, size := size,
    flags := MmapFlags.empty, unsafeFlags := UnsafeMmapFlags.empty,
    pageSize := none }

/-- `MmapOptions::flags()` in its Linux configuration: the sequence of
conditional `|=` steps of the source, starting from the empty flag set.
(The blocks for other `target_os` values are compiled out on Linux; the
`_ => MapFlags::empty()` arm of the huge-page match contributes no
sub-flag bits for a size class outside the enumeration, which has no
instance here since `PageSize` is exactly the spec's twelve classes.) -/
def MmapOptions.mapFlags (o : MmapOptions) : MapFlags :=
  let f := MapFlags.empty
  let f := if o.file.isNone then { f with anonymous := true } else f
  let f := if o.flags.copyOnWrite then { f with mapPrivate := true }
           else { f with mapShared := true }
  let f := if o.flags.populate then { f with populate := true } else f
  let f := if o.flags.noReserve then { f with noReserve := true } else f
  let f := if o.flags.hugePages then { f with hugetlb := true } else f
  let f := match o.pageSize with
    | none => f
    | some ps => { f with hugetlb := true, hugeSize := hugeSizeFlag ps }
  let f := if o.flags.locked then { f with locked := true } else f
  let f := if o.flags.stack then { f with stack := true } else f
  let f := if o.unsafeFlags.mapFixed then { f with fixed := true } else f
  f

/-- `MmapOptions::do_map` in its Linux configuration: `mmap` with the
translated flags, then — only when `NO_CORE_DUMP` is set — `madvise` with
`MADV_DONTDUMP`; any failure is returned as the translated `nix` error.
On success the returned mapping takes the file, the pointer, the size, and
a JIT bit equal to whether `UnsafeMmapFlags::JIT` was granted. -/
def MmapOptions.do_map (o : MmapOptions) (protect : ProtFlags)
    (orc : UnixOracle) : Except Error Mmap × List UnixCall :=
  let call := UnixCall.mmapCall o.address o.size protect o.mapFlags
    ((o.file.map (fun f => (f.1 : Int))).getD (-1))
    ((o.file.map (fun f => f.2)).getD 0)
  match orc.mmapRes with
  | Except.error e => (Except.error (Error.nixError e), [call])
  | Except.ok ptr =>
    let result : Mmap :=
      { file := o.file.map (fun f => f.1), ptr := ptr, size := o.size,
        flags := ⟨o.unsafeFlags.jit⟩ }
    if o.flags.noCoreDump then
      match orc.madviseRes with
      | Except.error e =>
        (Except.error (Error.nixError e),
          [call, UnixCall.madviseCall ptr o.size])
      | Except.ok _ =>
        (Except.ok result, [call, UnixCall.madviseCall ptr o.size])
    else
      (Except.ok result, [call])

def MmapOptions.map_none (o : MmapOptions) (orc : UnixOracle) :
    Except Error Mmap × List UnixCall :=
  o.do_map PROT_NONE orc

def MmapOptions.map (o : MmapOptions) (orc : UnixOracle) :
    Except Error Mmap × List UnixCall :=
  o.do_map PROT_READ orc

def MmapOptions.map_exec (o : MmapOptions) (orc : UnixOracle) :
    Except Error Mmap × List UnixCall :=
  o.do_map PROT_READ_EXEC orc

def MmapOptions.map_mut (o : MmapOptions) (orc : UnixOracle) :
    Except Error Mmap × List UnixCall :=
  o.do_map PROT_READ_WRITE orc

/-- `MmapOptions::map_exec_mut`: the JIT gate, then the read+write+exec
mapping. -/
def MmapOptions.map_exec_mut (o : MmapOptions) (orc : UnixOracle) :
    Except Error Mmap × List UnixCall :=
  if ¬ o.unsafeFlags.jit then
    (Except.error (Error.unsafeFlagNeeded UnsafeMmapFlags.JIT), [])
  else
    o.do_map PROT_READ_WRITE_EXEC orc

end Unix

/-! ## The Windows backend (`os_impl/windows.rs`)

Win32 primitives are black boxes driven by an oracle; every operation
returns its call trace. Protection and access constants carry their Win32
numeric values. -/

namespace Windows

def PAGE_NOACCESS : Nat := 0x01
def PAGE_READONLY : Nat := 0x02
def PAGE_READWRITE : Nat := 0x04
def PAGE_WRITECOPY : Nat := 0x08
def PAGE_EXECUTE_READ : Nat := 0x20
def PAGE_EXECUTE_READWRITE : Nat := 0x40
def PAGE_EXECUTE_WRITECOPY : Nat := 0x80
def SEC_LARGE_PAGES : Nat := 0x80000000
def FILE_MAP_WRITE : Nat := 0x2
def FILE_MAP_READ : Nat := 0x4
def FILE_MAP_EXECUTE : Nat := 0x20
def FILE_MAP_LARGE_PAGES : Nat := 0x20000000
def MEM_COMMIT : Nat := 0x1000
def MEM_RESERVE : Nat := 0x2000
def MEM_LARGE_PAGES : Nat := 0x20000000

/-- The read/write/execute permission granted by each Win32 page
protection constant. Modelled from the spec: the platform's mutually
exclusive protection levels none / read-only / read-exec / read-write /
read-write-exec, with the write-copy variants granting the same
read+write (resp. read+write+exec) access through private copies. -/
def pagePermissions (p : Nat) : Protection :=
  if p = PAGE_NOACCESS then ⟨false, false, false⟩
  else if p = PAGE_READONLY then ⟨true, false, false⟩
  else if p = PAGE_READWRITE then ⟨true, true, false⟩
  else if p = PAGE_WRITECOPY then ⟨true, true, false⟩
  else if p = PAGE_EXECUTE_READ then ⟨true, false, true⟩
  else if p = PAGE_EXECUTE_READWRITE then ⟨true, true, true⟩
  else if p = PAGE_EXECUTE_WRITECOPY then ⟨true, true, true⟩
  else ⟨false, false, false⟩

/-- The derived per-mapping flag record of the Windows backend (`Flags` in
`windows.rs`): the copy-on-write bit and the JIT bit. -/
structure WFlags where
  copyOnWrite : Bool
  jit : Bool
deriving DecidableEq, Repr

/-- A live Windows mapping (`Mmap` in `windows.rs`). -/
structure Mmap where
  file : Option Nat
  ptr : Nat
  size : Nat
  flags : WFlags
deriving DecidableEq, Repr

/-- One Win32 primitive invocation, with its arguments. -/
inductive WinCall where
  | virtualLock (addr len : Nat)
  | virtualUnlock (addr len : Nat)
  | flushViewOfFile (addr len : Nat)
  | syncData
  | virtualProtect (addr len prot : Nat)
  | flushInstructionCache (addr len : Nat)
  | createFileMapping (prot maxHi maxLo : Nat)
  | closeHandle
  | mapViewOfFile (access offHi offLo size : Nat)
  | virtualAlloc (addr : Option Nat) (size allocType prot : Nat)
  | unmapViewOfFile (addr : Nat)
  | virtualFree (addr len flags : Nat)
deriving DecidableEq, Repr

def WinCall.isMapView : WinCall → Bool
  | WinCall.mapViewOfFile _ _ _ _ => true
  | _ => false

def WinCall.isUnmapView : WinCall → Bool
  | WinCall.unmapViewOfFile _ => true
  | _ => false

/-- The OS oracle for the Windows backend: the status each primitive would
report, the pointers the view/allocation primitives would return (`0`
standing for null), and the `last_os_error` code observed after a
failure. -/
structure WinOracle where
  virtualLockOk : Bool
  virtualUnlockOk : Bool
  flushViewOk : Bool
  syncDataOk : Bool
  virtualProtectOk : Bool
  checkWriteOk : Bool
  checkExecOk : Bool
  mapViewPtr : Nat
  allocPtr : Nat
  osError : Int

/-- `Mmap::lock`: `VirtualLock` over the whole mapping. -/
def Mmap.lock (m : Mmap) (orc : WinOracle) :
    Except Error Unit × Mmap × List WinCall :=
  let call := WinCall.virtualLock m.ptr m.size
  if orc.virtualLockOk then (Except.ok (), m, [call])
  else (Except.error (Error.ioError orc.osError), m, [call])

/-- `Mmap::unlock`: `VirtualUnlock` over the whole mapping. -/
def Mmap.unlock (m : Mmap) (orc : WinOracle) :
    Except Error Unit × Mmap × List WinCall :=
  let call := WinCall.virtualUnlock m.ptr m.size
  if orc.virtualUnlockOk then (Except.ok (), m, [call])
  else (Except.error (Error.ioError orc.osError), m, [call])

/-- `Mmap::flush_async`: an explicit success, with no primitive invoked,
for an empty or inverted range; otherwise one `FlushViewOfFile` call. -/
def Mmap.flush_async (m : Mmap) (r : Nat × Nat) (orc : WinOracle) :
    Except Error Unit × Mmap × List WinCall :=
  if r.2 ≤ r.1 then (Except.ok (), m, [])
  else
    let call := WinCall.flushViewOfFile (m.ptr + r.1) (r.2 - r.1)
    if orc.flushViewOk then (Except.ok (), m, [call])
    else (Except.error (Error.ioError orc.osError), m, [call])

/-- `Mmap::flush`: `flush_async`, then `sync_data` on the backing file
when there is one. -/
def Mmap.flush (m : Mmap) (r : Nat × Nat) (orc : WinOracle) :
    Except Error Unit × Mmap × List WinCall :=
  match m.flush_async r orc with
  | (Except.error e, m, tr) => (Except.error e, m, tr)
  | (Except.ok _, m, tr) =>
    if m.file.isSome then
      if orc.syncDataOk then (Except.ok (), m, tr ++ [WinCall.syncData])
      else (Except.error (Error.ioError orc.osError), m,
        tr ++ [WinCall.syncData])
    else (Except.ok (), m, tr)

/-- `Mmap::do_make`: one `VirtualProtect` call over the whole mapping. -/
def Mmap.do_make (m : Mmap) (protect : Nat) (orc : WinOracle) :
    Except Error Unit × Mmap × List WinCall :=
  let call := WinCall.virtualProtect m.ptr m.size protect
  if orc.virtualProtectOk then (Except.ok (), m, [call])
  else (Except.error (Error.ioError orc.osError), m, [call])

/-- `Mmap::flush_icache` in the arm/aarch64 configuration: one
`FlushInstructionCache` call, whose status is ignored; always a success.
(The x86 configuration performs no call at all.) -/
def Mmap.flush_icache (m : Mmap) :
    Except Error Unit × Mmap × List WinCall :=
  (Except.ok (), m, [WinCall.flushInstructionCache m.ptr m.size])

def Mmap.make_none (m : Mmap) (orc : WinOracle) :
    Except Error Unit × Mmap × List WinCall :=
  m.do_make PAGE_NOACCESS orc

/-- `Mmap::make_read_only`, exactly as written in the source: it passes
`PAGE_READWRITE` to `VirtualProtect`. -/
def Mmap.make_read_only (m : Mmap) (orc : WinOracle) :
    Except Error Unit × Mmap × List WinCall :=
  m.do_make PAGE_READWRITE orc

def Mmap.make_exec (m : Mmap) (orc : WinOracle) :
    Except Error Unit × Mmap × List WinCall :=
  m.do_make PAGE_EXECUTE_READ orc

def Mmap.make_mut (m : Mmap) (orc : WinOracle) :
    Except Error Unit × Mmap × List WinCall :=
  let protect := if m.flags.copyOnWrite then PAGE_WRITECOPY
                 else PAGE_READWRITE
  m.do_make protect orc

/-- `Mmap::make_exec_mut`: the JIT gate, then `VirtualProtect` to the
executable writable (or write-copy) protection. -/
def Mmap.make_exec_mut (m : Mmap) (orc : WinOracle) :
    Except Error Unit × Mmap × List WinCall :=
  if ¬ m.flags.jit then
    (Except.error (Error.unsafeFlagNeeded UnsafeMmapFlags.JIT), m, [])
  else
    let protect := if m.flags.copyOnWrite then PAGE_EXECUTE_WRITECOPY
                   else PAGE_EXECUTE_READWRITE
    m.do_make protect orc

/-- The Windows mapping builder (`MmapOptions` in `windows.rs`): every
field is set through a setter; the constructor takes no size. -/
structure MmapOptions where
  address : Option Nat
  file : Option (Nat × Nat)
  size : Nat
  flags : MmapFlags
  unsafeFlags : UnsafeMmapFlags
  pageSize : Option PageSize
deriving Repr

/-- `MmapOptions::new()`. -/
def MmapOptions.new : MmapOptions :=
  { address := none, file := none, size := 0,
    flags := MmapFlags.empty, unsafeFlags := UnsafeMmapFlags.empty,
    pageSize := none }

/-- `MmapOptions::check_protection`: probe whether a file mapping object
can be created at the given protection. Without a backing file it returns
false immediately with no call; otherwise it creates a throwaway
`CreateFileMappingW(protection, 0, 0)` object, and on success closes the
handle and reports true. `ok` is the oracle's validity verdict for the
probe. -/
def MmapOptions.check_protection (o : MmapOptions) (ok : Bool)
    (protection : Nat) : Bool × List WinCall :=
  match o.file with
  | none => (false, [])
  | some _ =>
    if ok then (true, [WinCall.createFileMapping protection 0 0,
                       WinCall.closeHandle])
    else (false, [WinCall.createFileMapping protection 0 0])

/-- `MmapOptions::do_map`: probe the achievable write and execute
protections, compute the map-access and map-protection pair from the
probe outcomes, then either map a view of a file mapping object (adjusted
with `VirtualProtect` afterwards) or `VirtualAlloc` an anonymous region.
The source returns the `VirtualProtect` failure, when it occurs, without
unmapping the already-mapped view, and checks the view pointer for null
only after that; the embedding reproduces both orderings exactly. -/
def MmapOptions.do_map (o : MmapOptions) (protection : Nat)
    (orc : WinOracle) : Except Error Mmap × List WinCall :=
  let (write, t1) := o.check_protection orc.checkWriteOk PAGE_READWRITE
  let (execute, t2) := o.check_protection orc.checkExecOk PAGE_EXECUTE_READ
  let (mapAccess, mapProtection) :=
    match write, execute with
    | true, true =>
      (FILE_MAP_READ ||| FILE_MAP_WRITE ||| FILE_MAP_EXECUTE,
        PAGE_EXECUTE_READWRITE)
    | true, false => (FILE_MAP_READ ||| FILE_MAP_WRITE, PAGE_READWRITE)
    | false, true => (FILE_MAP_READ ||| FILE_MAP_EXECUTE, PAGE_EXECUTE_READ)
    | false, false => (FILE_MAP_READ, PAGE_READONLY)
  let size := o.size
  let mkResult : Nat → Mmap := fun ptr =>
    { file := o.file.map (fun f => f.1), ptr := ptr, size := size,
      flags := ⟨o.flags.copyOnWrite, o.unsafeFlags.jit⟩ }
  match o.file with
  | some (_, offset) =>
    let (mapAccess, mapProtection) :=
      if o.flags.hugePages then
        (mapAccess ||| FILE_MAP_LARGE_PAGES, mapProtection ||| SEC_LARGE_PAGES)
      else (mapAccess, mapProtection)
    let ptr := orc.mapViewPtr
    let trace := t1 ++ t2 ++
      [WinCall.createFileMapping mapProtection
        ((size >>> 32) &&& 0xffffffff) (size &&& 0xffffffff),
       WinCall.mapViewOfFile mapAccess
        ((offset >>> 32) &&& 0xffffffff) (offset &&& 0xffffffff) size,
       WinCall.closeHandle,
       WinCall.virtualProtect ptr size protection]
    if ¬ orc.virtualProtectOk then
      (Except.error (Error.ioError orc.osError), trace)
    else if ptr = 0 then
      (Except.error (Error.ioError orc.osError), trace)
    else
      (Except.ok (mkResult ptr), trace)
  | none =>
    let allocFlags :=
      if o.flags.hugePages then MEM_COMMIT ||| MEM_RESERVE ||| MEM_LARGE_PAGES
      else MEM_COMMIT ||| MEM_RESERVE
    let ptr := orc.allocPtr
    let trace := t1 ++ t2 ++
      [WinCall.virtualAlloc o.address size allocFlags protection]
    if ptr = 0 then
      (Except.error (Error.ioError orc.osError), trace)
    else
      (Except.ok (mkResult ptr), trace)

def MmapOptions.map_none (o : MmapOptions) (orc : WinOracle) :
    Except Error Mmap × List WinCall :=
  o.do_map PAGE_NOACCESS orc

def MmapOptions.map (o : MmapOptions) (orc : WinOracle) :
    Except Error Mmap × List WinCall :=
  o.do_map PAGE_READONLY orc

def MmapOptions.map_exec (o : MmapOptions) (orc : WinOracle) :
    Except Error Mmap × List WinCall :=
  o.do_map PAGE_EXECUTE_READ orc

def MmapOptions.map_mut (o : MmapOptions) (orc : WinOracle) :
    Except Error Mmap × List WinCall :=
  let protect := if o.flags.copyOnWrite then PAGE_WRITECOPY
                 else PAGE_READWRITE
  o.do_map protect orc

/-- `MmapOptions::map_exec_mut`: the JIT gate, then the executable
writable mapping. -/
def MmapOptions.map_exec_mut (o : MmapOptions) (orc : WinOracle) :
    Except Error Mmap × List WinCall :=
  if ¬ o.unsafeFlags.jit then
    (Except.error (Error.unsafeFlagNeeded UnsafeMmapFlags.JIT), [])
  else
    let protect := if o.flags.copyOnWrite then PAGE_EXECUTE_WRITECOPY
                   else PAGE_EXECUTE_READWRITE
    o.do_map protect orc

end Windows

/-! ## Concrete oracles and fixtures used by witnesses -/

/-- A unix oracle on which every primitive succeeds; `mmap` returns the
address `0x7000`. -/
def unixOracleOk : Unix.UnixOracle :=
  ⟨Except.ok 0x7000, Except.ok (), Except.ok (), Except.ok (),
   Except.ok (), Except.ok ()⟩

/-- A Windows oracle on which every primitive succeeds. -/
def winOracleOk : Windows.WinOracle :=
  ⟨true, true, true, true, true, true, true, 0x10000, 0x20000, 0⟩

/-! ## Helper lemmas -/

/-- The unix builder path can only fail with a translated `nix` error:
`do_map` never produces an `UnsafeFlagNeeded` error. -/
lemma unix_do_map_ne_gate (o : Unix.MmapOptions) (p : Unix.ProtFlags)
    (orc : Unix.UnixOracle) (f : UnsafeMmapFlags) :
    (o.do_map p orc).1 ≠ Except.error (Error.unsafeFlagNeeded f) := by
  unfold Unix.MmapOptions.do_map
  cases orc.mmapRes with
  | error e => simp
  | ok ptr =>
    by_cases h : o.flags.noCoreDump
    · cases orc.madviseRes <;> simp [h]
    · simp [h]

/-- `Mmap::do_make` on unix never produces an `UnsafeFlagNeeded` error. -/
lemma unix_do_make_ne_gate (m : Unix.Mmap) (p : Unix.ProtFlags)
    (orc : Unix.UnixOracle) (f : UnsafeMmapFlags) :
    (m.do_make p orc).1 ≠ Except.error (Error.unsafeFlagNeeded f) := by
  unfold Unix.Mmap.do_make
  cases orc.mprotectRes <;> simp

/-- The Windows builder path can only fail with a translated OS error:
`do_map` never produces an `UnsafeFlagNeeded` error. -/
lemma win_do_map_ne_gate (o : Windows.MmapOptions) (p : Nat)
    (orc : Windows.WinOracle) (f : UnsafeMmapFlags) :
    (o.do_map p orc).1 ≠ Except.error (Error.unsafeFlagNeeded f) := by
  unfold Windows.MmapOptions.do_map
  cases o.file with
  | none =>
    dsimp only
    split <;> simp
  | some fo =>
    obtain ⟨fh, offset⟩ := fo
    dsimp only
    split <;> split <;> simp

/-- `Mmap::do_make` on Windows never produces an `UnsafeFlagNeeded`
error. -/
lemma win_do_make_ne_gate (m : Windows.Mmap) (p : Nat)
    (orc : Windows.WinOracle) (f : UnsafeMmapFlags) :
    (m.do_make p orc).1 ≠ Except.error (Error.unsafeFlagNeeded f) := by
  unfold Windows.Mmap.do_make
  split <;> simp

/-! ## Claim theorems -/

/-- C1: On both backends, `map_exec_mut` returns `UnsafeFlagNeeded(JIT)`
exactly when the JIT unsafe flag is absent from the configuration, and
`make_exec_mut` returns it exactly when the JIT flag bit of the live
mapping is unset; the other four creation calls and four protection
transitions never return an `UnsafeFlagNeeded` error, for every flag set
and every OS outcome. -/
theorem c1_jit_gate :
    (∀ (o : Unix.MmapOptions) (orc : Unix.UnixOracle),
      (o.map_exec_mut orc).1
          = Except.error (Error.unsafeFlagNeeded UnsafeMmapFlags.JIT)
        ↔ o.unsafeFlags.jit = false)
  ∧ (∀ (o : Windows.MmapOptions) (orc : Windows.WinOracle),
      (o.map_exec_mut orc).1
          = Except.error (Error.unsafeFlagNeeded UnsafeMmapFlags.JIT)
        ↔ o.unsafeFlags.jit = false)
  ∧ (∀ (m : Unix.Mmap) (orc : Unix.UnixOracle),
      (m.make_exec_mut orc).1
          = Except.error (Error.unsafeFlagNeeded UnsafeMmapFlags.JIT)
        ↔ m.flags.jit = false)
  ∧ (∀ (m : Windows.Mmap) (orc : Windows.WinOracle),
      (m.make_exec_mut orc).1
          = Except.error (Error.unsafeFlagNeeded UnsafeMmapFlags.JIT)
        ↔ m.flags.jit = false)
  ∧ (∀ (o : Unix.MmapOptions) (orc : Unix.UnixOracle) (f : UnsafeMmapFlags),
      (o.map_none orc).1 ≠ Except.error (Error.unsafeFlagNeeded f)
    ∧ (o.map orc).1 ≠ Except.error (Error.unsafeFlagNeeded f)
    ∧ (o.map_exec orc).1 ≠ Except.error (Error.unsafeFlagNeeded f)
    ∧ (o.map_mut orc).1 ≠ Except.error (Error.unsafeFlagNeeded f))
  ∧ (∀ (o : Windows.MmapOptions) (orc : Windows.WinOracle)
        (f : UnsafeMmapFlags),
      (o.map_none orc).1 ≠ Except.error (Error.unsafeFlagNeeded f)
    ∧ (o.map orc).1 ≠ Except.error (Error.unsafeFlagNeeded f)
    ∧ (o.map_exec orc).1 ≠ Except.error (Error.unsafeFlagNeeded f)
    ∧ (o.map_mut orc).1 ≠ Except.error (Error.unsafeFlagNeeded f))
  ∧ (∀ (m : Unix.Mmap) (orc : Unix.UnixOracle) (f : UnsafeMmapFlags),
      (m.make_none orc).1 ≠ Except.error (Error.unsafeFlagNeeded f)
    ∧ (m.make_read_only orc).1 ≠ Except.error (Error.unsafeFlagNeeded f)
    ∧ (m.make_exec orc).1 ≠ Except.error (Error.unsafeFlagNeeded f)
    ∧ (m.make_mut orc).1 ≠ Except.error (Error.unsafeFlagNeeded f))
  ∧ (∀ (m : Windows.Mmap) (orc : Windows.WinOracle) (f : UnsafeMmapFlags),
      (m.make_none orc).1 ≠ Except.error (Error.unsafeFlagNeeded f)
    ∧ (m.make_read_only orc).1 ≠ Except.error (Error.unsafeFlagNeeded f)
    ∧ (m.make_exec orc).1 ≠ Except.error (Error.unsafeFlagNeeded f)
    ∧ (m.make_mut orc).1 ≠ Except.error (Error.unsafeFlagNeeded f)) := by
  refine ⟨?_, ?_, ?_, ?_, ?_, ?_, ?_, ?_⟩
  · intro o orc
    by_cases h : o.unsafeFlags.jit
    · simp [Unix.MmapOptions.map_exec_mut, h, unix_do_map_ne_gate]
    · simp_all [Unix.MmapOptions.map_exec_mut]
  · intro o orc
    by_cases h : o.unsafeFlags.jit
    · simp [Windows.MmapOptions.map_exec_mut, h, win_do_map_ne_gate]
    · simp_all [Windows.MmapOptions.map_exec_mut]
  · intro m orc
    by_cases h : m.flags.jit
    · simp [Unix.Mmap.make_exec_mut, h, unix_do_make_ne_gate]
    · simp_all [Unix.Mmap.make_exec_mut]
  · intro m orc
    by_cases h : m.flags.jit
    · simp [Windows.Mmap.make_exec_mut, h, win_do_make_ne_gate]
    · simp_all [Windows.Mmap.make_exec_mut]
  · intro o orc f
    exact ⟨unix_do_map_ne_gate o _ orc f, unix_do_map_ne_gate o _ orc f,
      unix_do_map_ne_gate o _ orc f, unix_do_map_ne_gate o _ orc f⟩
  · intro o orc f
    exact ⟨win_do_map_ne_gate o _ orc f, win_do_map_ne_gate o _ orc f,
      win_do_map_ne_gate o _ orc f, win_do_map_ne_gate o _ orc f⟩
  · intro m orc f
    exact ⟨unix_do_make_ne_gate m _ orc f, unix_do_make_ne_gate m _ orc f,
      unix_do_make_ne_gate m _ orc f, unix_do_make_ne_gate m _ orc f⟩
  · intro m orc f
    exact ⟨win_do_make_ne_gate m _ orc f, win_do_make_ne_gate m _ orc f,
      win_do_make_ne_gate m _ orc f, win_do_make_ne_gate m _ orc f⟩

/-- C2: evaluation of both backends' `make_read_only` at a live mapping.
The unix backend passes exactly `PROT_READ` to `mprotect` (read only), but
the Windows backend passes `PAGE_READWRITE` — a protection level that
grants write permission — to `VirtualProtect`, not `PAGE_READONLY`. This
exhibits the code bug: the claim (and the function's own name) require the
read-only protection level on every backend. -/
theorem c2_make_read_only_requests_readwrite :
    (Unix.Mmap.make_read_only ⟨none, 0x1000, 0x4000, ⟨false⟩⟩
        unixOracleOk).2.2
      = [Unix.UnixCall.mprotectCall 0x1000 0x4000 Unix.PROT_READ]
  ∧ Unix.PROT_READ = ⟨true, false, false⟩
  ∧ (Windows.Mmap.make_read_only ⟨none, 0x1000, 0x4000, ⟨false, false⟩⟩
        winOracleOk).2.2
      = [Windows.WinCall.virtualProtect 0x1000 0x4000 Windows.PAGE_READWRITE]
  ∧ Windows.pagePermissions Windows.PAGE_READWRITE = ⟨true, true, false⟩
  ∧ Windows.PAGE_READWRITE ≠ Windows.PAGE_READONLY := by
  refine ⟨rfl, rfl, rfl, by decide, by decide⟩

/-- C4, counterexample: on the unix backend, `flush_async` over the empty
range `[0, 0)` does invoke the platform flush primitive — it issues
`msync(ptr, 0, MS_ASYNC)` — refuting the claim that on every platform
backend an empty or inverted range causes a success without invoking the
primitive. -/
theorem c4_counterexample :
    (Unix.Mmap.flush_async ⟨none, 0x1000, 0x4000, ⟨false⟩⟩ (0, 0)
        unixOracleOk).2.2
      = [Unix.UnixCall.msyncCall 0x1000 0 false]
  ∧ (Unix.Mmap.flush_async ⟨none, 0x1000, 0x4000, ⟨false⟩⟩ (0, 0)
        unixOracleOk).2.2 ≠ [] := by
  refine ⟨by decide, by decide⟩

/-- C4, amended: only the Windows backend returns success without invoking
the platform flush primitive on an empty or inverted range; the unix
backend invokes `msync` unconditionally, whatever the range. -/
theorem c4_flush_async_empty_range :
    (∀ (m : Windows.Mmap) (r : Nat × Nat) (orc : Windows.WinOracle),
      r.2 ≤ r.1 → m.flush_async r orc = (Except.ok (), m, []))
  ∧ (∀ (m : Unix.Mmap) (r : Nat × Nat) (orc : Unix.UnixOracle),
      (m.flush_async r orc).2.2 ≠ []) := by
  constructor
  · intro m r orc h
    simp [Windows.Mmap.flush_async, h]
  · intro m r orc
    unfold Unix.Mmap.flush_async
    cases orc.msyncRes <;> simp

/-- C4, witness: the amended Windows clause at the inverted range
`[5, 3)`. -/
theorem c4_flush_async_empty_range_witness :
    Windows.Mmap.flush_async ⟨none, 0x1000, 0x4000, ⟨false, false⟩⟩ (5, 3)
        winOracleOk
      = (Except.ok (), ⟨none, 0x1000, 0x4000, ⟨false, false⟩⟩, []) :=
  c4_flush_async_empty_range.1 ⟨none, 0x1000, 0x4000, ⟨false, false⟩⟩
    (5, 3) winOracleOk (by decide)

/-- The literal `/proc/<pid>/maps` line of the specification's parser
fixture. -/
def lineC5 : String :=
  "7f1234560000-7f1234580000 r--p 00001000 08:01 123456 /lib/libc.so"

/-- C5, counterexample: parsing the literal fixture line yields share mode
`CopyOnWrite`, not `Private` as the claim states — the raw `p` flag is
reclassified because a path is present. -/
theorem c5_counterexample :
    (memoryRegion lineC5.data).map (fun x => x.1.shareMode)
      = some ShareMode.CopyOnWrite
  ∧ ShareMode.CopyOnWrite ≠ ShareMode.Private := by
  refine ⟨by decide, by decide⟩

/-- C5, amended: parsing the literal fixture line yields the record with
range `[0x7f1234560000, 0x7f1234580000)`, protection = read bit only,
share mode `CopyOnWrite` (the private file-backed mapping is
reclassified), path `/lib/libc.so` and offset `0x1000`, consuming the
whole line. -/
theorem c5_parse_literal_line :
    memoryRegion lineC5.data
      = some ({ start := 0x7f1234560000, stop := 0x7f1234580000,
                protection := Protection.READ,
                shareMode := ShareMode.CopyOnWrite,
                path := some ("/lib/libc.so", 0x1000) }, []) := by
  decide

/-- The Windows builder configuration and oracle exhibiting the C8 leak:
a file-backed request whose protection probes and view mapping succeed and
whose final `VirtualProtect` fails with OS error 5. -/
def c8opts : Windows.MmapOptions :=
  { address := none, file := some (7, 0), size := 0x1000,
    flags := MmapFlags.empty, unsafeFlags := UnsafeMmapFlags.empty,
    pageSize := none }

def c8orc : Windows.WinOracle :=
  { virtualLockOk := true, virtualUnlockOk := true, flushViewOk := true,
    syncDataOk := true, virtualProtectOk := false, checkWriteOk := true,
    checkExecOk := true, mapViewPtr := 0x10000, allocPtr := 0x20000,
    osError := 5 }

/-- C8: evaluation of the Windows file-backed creation path at the failing
input. When `VirtualProtect` fails after `MapViewOfFileEx` has mapped the
view, `map()` returns the OS error, its call trace contains the successful
view-mapping call, and it contains no `UnmapViewOfFile` call — the view is
leaked, contradicting the claim (and the spec's design note) that the view
is unmapped before the error is returned. -/
theorem c8_view_leaked_on_protect_failure :
    (c8opts.map c8orc).1 = Except.error (Error.ioError 5)
  ∧ ((c8opts.map c8orc).2.any Windows.WinCall.isMapView) = true
  ∧ ((c8opts.map c8orc).2.any Windows.WinCall.isUnmapView) = false := by
  refine ⟨rfl, by decide, by decide⟩

/-- Closed form of the Linux flag translation: each native flag bit as a
function of the portable option record. -/
lemma mapFlags_eval (o : Unix.MmapOptions) :
    o.mapFlags =
      { anonymous := o.file.isNone,
        mapShared := !o.flags.copyOnWrite,
        mapPrivate := o.flags.copyOnWrite,
        populate := o.flags.populate,
        noReserve := o.flags.noReserve,
        hugetlb := o.flags.hugePages || o.pageSize.isSome,
        hugeSize := (o.pageSize.map Unix.hugeSizeFlag).getD 0,
        locked := o.flags.locked,
        stack := o.flags.stack,
        fixed := o.unsafeFlags.mapFixed } := by
  rcases o with ⟨addr, file, size, ⟨cow, pop, nr, hp, lk, st, ncd⟩,
    ⟨fx, jit⟩, ps⟩
  cases file <;> cases cow <;> cases pop <;> cases nr <;> cases hp <;>
    cases ps <;> cases lk <;> cases st <;> cases fx <;> rfl

/-- C7: the POSIX flag translator (Linux configuration) is a total
function of the option record (its Lean type is total, with no failure
path): the anonymous flag is set exactly when no backing file is present;
the private flag is set when COPY_ON_WRITE is set and the shared flag
otherwise, never both; and a configured huge-page size class always forces
the huge-page flag together with its class-specific sub-flag (every class
of the enumeration has a sub-flag on this platform; a class outside it
would contribute no sub-flag bits, not an error). -/
theorem c7_flags_translation :
    ∀ o : Unix.MmapOptions,
      (o.mapFlags.anonymous = o.file.isNone)
    ∧ (o.mapFlags.mapPrivate = o.flags.copyOnWrite
        ∧ o.mapFlags.mapShared = !o.flags.copyOnWrite
        ∧ ¬(o.mapFlags.mapPrivate = true ∧ o.mapFlags.mapShared = true))
    ∧ (∀ ps, o.pageSize = some ps →
        o.mapFlags.hugetlb = true
        ∧ o.mapFlags.hugeSize = Unix.hugeSizeFlag ps) := by
  intro o
  refine ⟨?_, ⟨?_, ?_, ?_⟩, ?_⟩
  · simp [mapFlags_eval]
  · simp [mapFlags_eval]
  · simp [mapFlags_eval]
  · simp only [mapFlags_eval]
    cases o.flags.copyOnWrite <;> simp
  · intro ps h
    simp [mapFlags_eval, h]

/-- C9: every operation on a live mapping — lock, unlock, flush,
flush_async, flush_icache and the five protection transitions — leaves the
mapping's stored fields unchanged on both backends, whatever the OS
outcome; a successfully created mapping's JIT flag bit equals whether
`UnsafeMmapFlags::JIT` was granted at creation; and the outcome of
`make_exec_mut`'s safety gate depends only on that stored bit, hence is
fixed at creation time. -/
theorem c9_operations_frame :
    (∀ (m : Unix.Mmap) (orc : Unix.UnixOracle) (r : Nat × Nat),
        (m.lock orc).2.1 = m ∧ (m.unlock orc).2.1 = m
      ∧ (m.flush r orc).2.1 = m ∧ (m.flush_async r orc).2.1 = m
      ∧ m.flush_icache.2.1 = m
      ∧ (m.make_none orc).2.1 = m ∧ (m.make_read_only orc).2.1 = m
      ∧ (m.make_exec orc).2.1 = m ∧ (m.make_mut orc).2.1 = m
      ∧ (m.make_exec_mut orc).2.1 = m)
  ∧ (∀ (m : Windows.Mmap) (orc : Windows.WinOracle) (r : Nat × Nat),
        (m.lock orc).2.1 = m ∧ (m.unlock orc).2.1 = m
      ∧ (m.flush r orc).2.1 = m ∧ (m.flush_async r orc).2.1 = m
      ∧ m.flush_icache.2.1 = m
      ∧ (m.make_none orc).2.1 = m ∧ (m.make_read_only orc).2.1 = m
      ∧ (m.make_exec orc).2.1 = m ∧ (m.make_mut orc).2.1 = m
      ∧ (m.make_exec_mut orc).2.1 = m)
  ∧ (∀ (o : Unix.MmapOptions) (p : Unix.ProtFlags) (orc : Unix.UnixOracle)
        (m : Unix.Mmap),
      (o.do_map p orc).1 = Except.ok m → m.flags.jit = o.unsafeFlags.jit)
  ∧ (∀ (o : Windows.MmapOptions) (p : Nat) (orc : Windows.WinOracle)
        (m : Windows.Mmap),
      (o.do_map p orc).1 = Except.ok m → m.flags.jit = o.unsafeFlags.jit)
  ∧ (∀ (m : Unix.Mmap) (orc orc' : Unix.UnixOracle),
      ((m.make_exec_mut orc).1
          = Except.error (Error.unsafeFlagNeeded UnsafeMmapFlags.JIT))
        = ((m.make_exec_mut orc').1
          = Except.error (Error.unsafeFlagNeeded UnsafeMmapFlags.JIT)))
  ∧ (∀ (m : Windows.Mmap) (orc orc' : Windows.WinOracle),
      ((m.make_exec_mut orc).1
          = Except.error (Error.unsafeFlagNeeded UnsafeMmapFlags.JIT))
        = ((m.make_exec_mut orc').1
          = Except.error (Error.unsafeFlagNeeded UnsafeMmapFlags.JIT))) := by
  refine ⟨?_, ?_, ?_, ?_, ?_, ?_⟩
  · intro m orc r
    refine ⟨?_, ?_, ?_, ?_, rfl, ?_, ?_, ?_, ?_, ?_⟩
    · unfold Unix.Mmap.lock; cases orc.mlockRes <;> rfl
    · unfold Unix.Mmap.unlock; cases orc.munlockRes <;> rfl
    · unfold Unix.Mmap.flush; cases orc.msyncRes <;> rfl
    · unfold Unix.Mmap.flush_async; cases orc.msyncRes <;> rfl
    · unfold Unix.Mmap.make_none Unix.Mmap.do_make
      cases orc.mprotectRes <;> rfl
    · unfold Unix.Mmap.make_read_only Unix.Mmap.do_make
      cases orc.mprotectRes <;> rfl
    · unfold Unix.Mmap.make_exec Unix.Mmap.do_make
      cases orc.mprotectRes <;> rfl
    · unfold Unix.Mmap.make_mut Unix.Mmap.do_make
      cases orc.mprotectRes <;> rfl
    · unfold Unix.Mmap.make_exec_mut Unix.Mmap.do_make
      cases hj : m.flags.jit <;> simp [hj] <;>
        cases orc.mprotectRes <;> rfl
  · intro m orc r
    refine ⟨?_, ?_, ?_, ?_, rfl, ?_, ?_, ?_, ?_, ?_⟩
    · unfold Windows.Mmap.lock; split <;> rfl
    · unfold Windows.Mmap.unlock; split <;> rfl
    · unfold Windows.Mmap.flush Windows.Mmap.flush_async
      by_cases h : r.2 ≤ r.1
      · simp only [h, if_true, if_pos]
        cases hfile : m.file <;> simp [hfile] <;>
          cases hs : orc.syncDataOk <;> simp [hs]
      · simp only [h, if_false]
        cases hf : orc.flushViewOk <;> simp [hf]
        cases hfile : m.file <;> simp [hfile]
        cases hs : orc.syncDataOk <;> simp [hs]
    · unfold Windows.Mmap.flush_async
      split
      · rfl
      · split <;> rfl
    · unfold Windows.Mmap.make_none Windows.Mmap.do_make; split <;> rfl
    · unfold Windows.Mmap.make_read_only Windows.Mmap.do_make
      split <;> rfl
    · unfold Windows.Mmap.make_exec Windows.Mmap.do_make; split <;> rfl
    · unfold Windows.Mmap.make_mut Windows.Mmap.do_make
      split <;> split <;> rfl
    · unfold Windows.Mmap.make_exec_mut Windows.Mmap.do_make
      cases hj : m.flags.jit <;> simp [hj] <;> split <;> rfl
  · intro o p orc m h
    unfold Unix.MmapOptions.do_map at h
    cases horc : orc.mmapRes with
    | error e => rw [horc] at h; exact absurd h (by simp)
    | ok ptr =>
      rw [horc] at h
      by_cases hc : o.flags.noCoreDump
      · simp only [hc, if_true] at h
        cases hadv : orc.madviseRes with
        | error e => rw [hadv] at h; exact absurd h (by simp)
        | ok u =>
          rw [hadv] at h
          injection h with h'
          rw [← h']
      · simp only [hc, if_false] at h
        injection h with h'
        rw [← h']
  · intro o p orc m h
    unfold Windows.MmapOptions.do_map at h
    cases hfil : o.file with
    | none =>
      rw [hfil] at h
      dsimp only at h
      by_cases ha : orc.allocPtr = 0
      · simp [ha] at h
      · simp [ha] at h
        rw [← h]
    | some fo =>
      obtain ⟨fh, offset⟩ := fo
      rw [hfil] at h
      dsimp only at h
      by_cases hvp : orc.virtualProtectOk
      · by_cases hptr : orc.mapViewPtr = 0
        · simp [hvp, hptr] at h
        · simp [hvp, hptr] at h
          rw [← h]
      · simp [hvp] at h
  · intro m orc orc'
    by_cases h : m.flags.jit <;>
      simp [Unix.Mmap.make_exec_mut, h, unix_do_make_ne_gate]
  · intro m orc orc'
    by_cases h : m.flags.jit <;>
      simp [Windows.Mmap.make_exec_mut, h, win_do_make_ne_gate]

/-- C9, witness: a successful concrete unix creation whose mapping carries
the creation-time JIT bit. -/
theorem c9_operations_frame_witness :
    (⟨none, 0x7000, 0x1000, ⟨false⟩⟩ : Unix.Mmap).flags.jit
      = (Unix.MmapOptions.new 0x1000).unsafeFlags.jit :=
  c9_operations_frame.2.2.1 (Unix.MmapOptions.new 0x1000) Unix.PROT_READ
    unixOracleOk ⟨none, 0x7000, 0x1000, ⟨false⟩⟩ rfl

/-- C7, witness: the translation evaluated at a concrete anonymous
configuration with the 2M huge-page class. -/
theorem c7_flags_translation_witness :
    ({ Unix.MmapOptions.new 0x1000 with
        pageSize := some PageSize._2M }.mapFlags.hugetlb = true)
  ∧ ({ Unix.MmapOptions.new 0x1000 with
        pageSize := some PageSize._2M }.mapFlags.hugeSize
      = Unix.hugeSizeFlag PageSize._2M) :=
  (c7_flags_translation
    { Unix.MmapOptions.new 0x1000 with pageSize := some PageSize._2M }).2.2
    PageSize._2M rfl

/-- C3: a line that fails to parse yields no item while the underlying
reader still advances past it, so the next call parses and yields the
following well-formed line as a record. -/
theorem c3_malformed_line_skipped :
    ∀ (bad good : String) (rest : AreasState) (r : MemoryArea)
      (leftover : List Char),
      memoryRegion bad.data = none →
      memoryRegion good.data = some (r, leftover) →
      areasNext (Except.ok bad :: Except.ok good :: rest)
          = (none, Except.ok good :: rest)
        ∧ areasNext (Except.ok good :: rest) = (some (Except.ok r), rest) := by
  intro bad good rest r leftover h1 h2
  constructor
  · simp [areasNext, h1]
  · simp [areasNext, h2]

/-- C3, witness: a concrete malformed line followed by a well-formed
line. -/
theorem c3_malformed_line_skipped_witness :
    areasNext [Except.ok "garbage", Except.ok "0-1000 r--p 0 08:01 12"]
        = (none, [Except.ok "0-1000 r--p 0 08:01 12"])
    ∧ areasNext [Except.ok "0-1000 r--p 0 08:01 12"]
        = (some (Except.ok
            ⟨0, 0x1000, Protection.READ, ShareMode.Private, none⟩), []) :=
  c3_malformed_line_skipped "garbage" "0-1000 r--p 0 08:01 12" []
    ⟨0, 0x1000, Protection.READ, ShareMode.Private, none⟩ []
    (by decide) (by decide)

/-- The share position parser only produces `Shared` or `Private`. -/
lemma pShareChar_ne_cow {cs : List Char} {s : ShareMode}
    {rest : List Char} (h : pShareChar cs = some (s, rest)) :
    s ≠ ShareMode.CopyOnWrite := by
  unfold pShareChar at h
  cases cs with
  | nil => simp at h
  | cons c cs' =>
    by_cases h1 : c = 's'
    · simp [h1] at h
      rw [← h.1]
      decide
    · by_cases h2 : c = 'p'
      · simp [h1, h2] at h
        rw [← h.1]
        decide
      · simp [h1, h2] at h

/-- The permissions parser only produces a raw share mode of `Shared` or
`Private`. -/
lemma pPermissions_share_ne_cow {cs : List Char}
    {v : Protection × ShareMode} {rest : List Char}
    (h : pPermissions cs = some (v, rest)) :
    v.2 ≠ ShareMode.CopyOnWrite := by
  unfold pPermissions at h
  cases h1 : pPermChar 'r' Protection.READ cs with
  | none => rw [h1] at h; exact absurd h (by simp)
  | some a =>
    obtain ⟨r, cs1⟩ := a
    rw [h1] at h
    dsimp only at h
    cases h2 : pPermChar 'w' Protection.WRITE cs1 with
    | none => rw [h2] at h; exact absurd h (by simp)
    | some b =>
      obtain ⟨w, cs2⟩ := b
      rw [h2] at h
      dsimp only at h
      cases h3 : pPermChar 'x' Protection.EXECUTE cs2 with
      | none => rw [h3] at h; exact absurd h (by simp)
      | some c =>
        obtain ⟨x, cs3⟩ := c
        rw [h3] at h
        dsimp only at h
        cases h4 : pShareChar cs3 with
        | none => rw [h4] at h; exact absurd h (by simp)
        | some d =>
          obtain ⟨s, cs4⟩ := d
          rw [h4] at h
          dsimp only at h
          have hs := pShareChar_ne_cow h4
          simp only [Option.some.injEq, Prod.mk.injEq] at h
          rw [← h.1]
          exact hs

/-- The raw field tuple of a successful `memory_region()` parse carries a
raw share mode of `Shared` or `Private`, never `CopyOnWrite`. -/
lemma pMemoryRegionRaw_share_ne_cow {cs : List Char}
    {range : Nat × Nat} {prot : Protection} {raw : ShareMode}
    {offset : Nat} {dev : Nat × Nat} {pathOpt : Option String}
    {rest : List Char}
    (h : pMemoryRegionRaw cs
      = some ((range, prot, raw, offset, dev, pathOpt), rest)) :
    raw ≠ ShareMode.CopyOnWrite := by
  unfold pMemoryRegionRaw at h
  cases h1 : pAddressRange cs with
  | none => rw [h1] at h; exact absurd h (by simp)
  | some a =>
    obtain ⟨rg, cs1⟩ := a
    rw [h1] at h
    dsimp only at h
    cases h2 : pPermissions (pSpaces cs1) with
    | none => rw [h2] at h; exact absurd h (by simp)
    | some b =>
      obtain ⟨⟨pr, sh⟩, cs2⟩ := b
      rw [h2] at h
      dsimp only at h
      have hs : sh ≠ ShareMode.CopyOnWrite :=
        pPermissions_share_ne_cow h2
      cases h3 : pHexNum 64 (pSpaces cs2) with
      | none => rw [h3] at h; exact absurd h (by simp)
      | some c =>
        obtain ⟨off, cs3⟩ := c
        rw [h3] at h
        dsimp only at h
        cases h4 : pDeviceId (pSpaces cs3) with
        | none => rw [h4] at h; exact absurd h (by simp)
        | some d =>
          obtain ⟨dv, cs4⟩ := d
          rw [h4] at h
          dsimp only at h
          cases h5 : pHexDigits1 (pSpaces cs4) with
          | none => rw [h5] at h; exact absurd h (by simp)
          | some e =>
            obtain ⟨ino, cs5⟩ := e
            rw [h5] at h
            dsimp only at h
            cases h6 : pPath (pSpaces cs5) with
            | none =>
              rw [h6] at h
              dsimp only at h
              simp only [Option.some.injEq, Prod.mk.injEq] at h
              obtain ⟨⟨_, _, hsh, _⟩, _⟩ := h
              rw [← hsh]
              exact hs
            | some f =>
              obtain ⟨pth, cs6⟩ := f
              rw [h6] at h
              dsimp only at h
              simp only [Option.some.injEq, Prod.mk.injEq] at h
              obtain ⟨⟨_, _, hsh, _⟩, _⟩ := h
              rw [← hsh]
              exact hs

/-- C6: for every successfully parsed line — decomposed into the raw field
tuple the source's closure receives — the yielded record's share mode is
`CopyOnWrite` exactly when a path is present and the raw share flag was
`Private`; with no path the raw mode is reported unchanged, and a path
with the `Shared` flag reports `Shared`. -/
theorem c6_share_mode_refinement :
    ∀ (cs : List Char) (range : Nat × Nat) (prot : Protection)
      (raw : ShareMode) (offset : Nat) (dev : Nat × Nat)
      (pathOpt : Option String) (rest : List Char),
      pMemoryRegionRaw cs
          = some ((range, prot, raw, offset, dev, pathOpt), rest) →
      ∃ r : MemoryArea, memoryRegion cs = some (r, rest)
        ∧ (r.shareMode = ShareMode.CopyOnWrite
            ↔ pathOpt.isSome = true ∧ raw = ShareMode.Private)
        ∧ (pathOpt = none → r.shareMode = raw)
        ∧ (pathOpt.isSome = true → raw = ShareMode.Shared →
            r.shareMode = ShareMode.Shared) := by
  intro cs range prot raw offset dev pathOpt rest h
  have hraw := pMemoryRegionRaw_share_ne_cow h
  refine ⟨{ start := range.1, stop := range.2, protection := prot,
            shareMode :=
              if pathOpt.isSome = true ∧ raw = ShareMode.Private then
                ShareMode.CopyOnWrite
              else raw,
            path := pathOpt.map (fun p => (p, offset)) }, ?_, ?_, ?_, ?_⟩
  · unfold memoryRegion
    rw [h]
  · by_cases hc : pathOpt.isSome = true ∧ raw = ShareMode.Private
    · simp only [if_pos hc]
      simp [hc]
    · simp only [if_neg hc]
      constructor
      · intro hh
        exact absurd hh hraw
      · intro hh
        exact absurd hh hc
  · intro hp
    subst hp
    simp
  · intro hp hsh
    subst hsh
    simp

/-- C6, witness: a concrete file-backed line with the `s` flag parses with
raw mode `Shared` and reports `Shared`. -/
theorem c6_share_mode_refinement_witness :
    ∃ r : MemoryArea,
      memoryRegion ("0-1000 rw-s 0 08:01 5 /x").data = some (r, [])
      ∧ (r.shareMode = ShareMode.CopyOnWrite
          ↔ (some "/x").isSome = true ∧ ShareMode.Shared = ShareMode.Private)
      ∧ (some "/x" = none → r.shareMode = ShareMode.Shared)
      ∧ ((some "/x").isSome = true → ShareMode.Shared = ShareMode.Shared →
          r.shareMode = ShareMode.Shared) :=
  c6_share_mode_refinement ("0-1000 rw-s 0 08:01 5 /x").data
    (0, 0x1000) ⟨true, true, false⟩ ShareMode.Shared 0 (8, 1)
    (some "/x") [] (by rfl)

/-! ## Grammar-level lemmas for the overflow claim -/

lemma takeWhile_append_of (p : Char → Bool) (ds rest : List Char)
    (h2 : ∀ c ∈ ds, p c = true)
    (h3 : ∀ c, rest.head? = some c → p c = false) :
    (ds ++ rest).takeWhile p = ds ∧ (ds ++ rest).dropWhile p = rest := by
  induction ds with
  | nil =>
    simp only [List.nil_append]
    cases rest with
    | nil => simp
    | cons c cs =>
      have hc := h3 c rfl
      simp [List.takeWhile_cons, List.dropWhile_cons, hc]
  | cons d ds ih =>
    have hd : p d = true := h2 d (by simp)
    have ih' := ih (fun c hc => h2 c (by simp [hc]))
    simp [List.takeWhile_cons, List.dropWhile_cons, hd, ih'.1, ih'.2]

lemma pHexDigits1_append (ds rest : List Char) (h1 : ds ≠ [])
    (h2 : ∀ c ∈ ds, isHexDigitChar c = true)
    (h3 : ∀ c, rest.head? = some c → isHexDigitChar c = false) :
    pHexDigits1 (ds ++ rest) = some (ds, rest) := by
  obtain ⟨ht, hdp⟩ := takeWhile_append_of _ ds rest h2 h3
  unfold pHexDigits1
  simp [ht, hdp, h1]

lemma pHexNum_append (w : Nat) (ds rest : List Char) (h1 : ds ≠ [])
    (h2 : ∀ c ∈ ds, isHexDigitChar c = true)
    (h3 : ∀ c, rest.head? = some c → isHexDigitChar c = false) :
    pHexNum w (ds ++ rest)
      = if hexVal ds < 2 ^ w then some (hexVal ds, rest) else none := by
  unfold pHexNum
  rw [pHexDigits1_append ds rest h1 h2 h3]

lemma pSpaces_cons_space (cs : List Char) :
    pSpaces (' ' :: cs) = pSpaces cs := by
  unfold pSpaces
  rw [List.dropWhile_cons]
  simp [show rustIsWhitespace ' ' = true by decide]

lemma pSpaces_no_ws (cs : List Char)
    (h : ∀ c, cs.head? = some c → rustIsWhitespace c = false) :
    pSpaces cs = cs := by
  unfold pSpaces
  cases cs with
  | nil => rfl
  | cons c cs' =>
    rw [List.dropWhile_cons]
    simp [h c rfl]

lemma hex_not_ws (c : Char) (h : isHexDigitChar c = true) :
    rustIsWhitespace c = false := by
  have hb : (0x30 ≤ c.toNat ∧ c.toNat ≤ 0x39)
      ∨ (0x61 ≤ c.toNat ∧ c.toNat ≤ 0x66)
      ∨ (0x41 ≤ c.toNat ∧ c.toNat ≤ 0x46) := by
    unfold isHexDigitChar hexDigitVal at h
    by_cases h1 : 0x30 ≤ c.toNat ∧ c.toNat ≤ 0x39
    · exact Or.inl h1
    · by_cases h2 : 0x61 ≤ c.toNat ∧ c.toNat ≤ 0x66
      · exact Or.inr (Or.inl h2)
      · by_cases h3 : 0x41 ≤ c.toNat ∧ c.toNat ≤ 0x46
        · exact Or.inr (Or.inr h3)
        · simp [h1, h2, h3] at h
  unfold rustIsWhitespace
  simp only [Bool.or_eq_false_iff, Bool.and_eq_false_iff,
    decide_eq_false_iff_not]
  omega

lemma pAddressRange_append (sa ea tail : List Char)
    (hsa1 : sa ≠ []) (hsa2 : ∀ c ∈ sa, isHexDigitChar c = true)
    (hea1 : ea ≠ []) (hea2 : ∀ c ∈ ea, isHexDigitChar c = true)
    (htail : ∀ c, tail.head? = some c → isHexDigitChar c = false) :
    pAddressRange (sa ++ '-' :: (ea ++ tail))
      = if hexVal sa < 2 ^ 64 then
          (if hexVal ea < 2 ^ 64 then some ((hexVal sa, hexVal ea), tail)
           else none)
        else none := by
  unfold pAddressRange
  rw [pHexNum_append 64 sa ('-' :: (ea ++ tail)) hsa1 hsa2
    (by intro c hc; simp at hc; rw [← hc]; decide)]
  by_cases hA : hexVal sa < 2 ^ 64
  · rw [if_pos hA, if_pos hA]
    dsimp only
    unfold pToken
    dsimp only
    rw [if_pos rfl]
    dsimp only
    rw [pHexNum_append 64 ea tail hea1 hea2 htail]
    by_cases hB : hexVal ea < 2 ^ 64
    · rw [if_pos hB, if_pos hB]
    · rw [if_neg hB, if_neg hB]
  · rw [if_neg hA, if_neg hA]

lemma pDeviceId_append (ma mi tail : List Char)
    (hma1 : ma ≠ []) (hma2 : ∀ c ∈ ma, isHexDigitChar c = true)
    (hmi1 : mi ≠ []) (hmi2 : ∀ c ∈ mi, isHexDigitChar c = true)
    (htail : ∀ c, tail.head? = some c → isHexDigitChar c = false) :
    pDeviceId (ma ++ ':' :: (mi ++ tail))
      = if hexVal ma < 2 ^ 8 then
          (if hexVal mi < 2 ^ 8 then some ((hexVal ma, hexVal mi), tail)
           else none)
        else none := by
  unfold pDeviceId
  rw [pHexNum_append 8 ma (':' :: (mi ++ tail)) hma1 hma2
    (by intro c hc; simp at hc; rw [← hc]; decide)]
  by_cases hA : hexVal ma < 2 ^ 8
  · rw [if_pos hA, if_pos hA]
    dsimp only
    unfold pToken
    dsimp only
    rw [if_pos rfl]
    dsimp only
    rw [pHexNum_append 8 mi tail hmi1 hmi2 htail]
    by_cases hB : hexVal mi < 2 ^ 8
    · rw [if_pos hB, if_pos hB]
    · rw [if_neg hB, if_neg hB]
  · rw [if_neg hA, if_neg hA]

lemma pPermissions_perm_chars (p1 p2 p3 p4 : Char) (rest : List Char)
    (h1 : p1 = 'r' ∨ p1 = '-') (h2 : p2 = 'w' ∨ p2 = '-')
    (h3 : p3 = 'x' ∨ p3 = '-') (h4 : p4 = 's' ∨ p4 = 'p') :
    ∃ v, pPermissions (p1 :: p2 :: p3 :: p4 :: rest) = some (v, rest) := by
  rcases h1 with rfl | rfl <;> rcases h2 with rfl | rfl <;>
    rcases h3 with rfl | rfl <;> rcases h4 with rfl | rfl <;>
      exact ⟨_, rfl⟩

/-- C10: the device components are converted as 8-bit and the addresses
as 64-bit (`usize`) integers; every line of the grammar whose major or
minor value exceeds 0xff, or whose address value does not fit in 64 bits,
fails the numeric conversion, and `next()` silently drops the whole line
from the sequence. -/
theorem c10_numeric_overflow_drops_line :
    ∀ (sa ea od ma mi ino pa : List Char) (p1 p2 p3 p4 : Char)
      (rest : AreasState),
      sa ≠ [] → (∀ c ∈ sa, isHexDigitChar c = true) →
      ea ≠ [] → (∀ c ∈ ea, isHexDigitChar c = true) →
      od ≠ [] → (∀ c ∈ od, isHexDigitChar c = true) →
      ma ≠ [] → (∀ c ∈ ma, isHexDigitChar c = true) →
      mi ≠ [] → (∀ c ∈ mi, isHexDigitChar c = true) →
      (p1 = 'r' ∨ p1 = '-') → (p2 = 'w' ∨ p2 = '-') →
      (p3 = 'x' ∨ p3 = '-') → (p4 = 's' ∨ p4 = 'p') →
      (2 ^ 64 ≤ hexVal sa ∨ 2 ^ 64 ≤ hexVal ea
        ∨ 2 ^ 8 ≤ hexVal ma ∨ 2 ^ 8 ≤ hexVal mi) →
      areasNext (Except.ok (String.mk
          (mkMapsLine sa ea p1 p2 p3 p4 od ma mi ino pa)) :: rest)
        = (none, rest) := by
  intro sa ea od ma mi ino pa p1 p2 p3 p4 rest
  intro hsa1 hsa2 hea1 hea2 hod1 hod2 hma1 hma2 hmi1 hmi2
  intro hp1 hp2 hp3 hp4 hov
  suffices hraw :
      pMemoryRegionRaw (mkMapsLine sa ea p1 p2 p3 p4 od ma mi ino pa)
        = none by
    have hmr :
        memoryRegion (mkMapsLine sa ea p1 p2 p3 p4 od ma mi ino pa)
          = none := by
      unfold memoryRegion
      rw [hraw]
    simp [areasNext, hmr]
  unfold mkMapsLine pMemoryRegionRaw
  rw [pAddressRange_append sa ea _ hsa1 hsa2 hea1 hea2
    (by intro c hc; simp at hc; subst hc; decide)]
  by_cases hA : hexVal sa < 2 ^ 64
  · rw [if_pos hA]
    by_cases hB : hexVal ea < 2 ^ 64
    · rw [if_pos hB]
      dsimp only
      rw [pSpaces_cons_space, pSpaces_no_ws _
        (by intro c hc; simp at hc; subst hc;
            rcases hp1 with rfl | rfl <;> decide)]
      obtain ⟨v, hperm⟩ := pPermissions_perm_chars p1 p2 p3 p4
        (' ' :: (od ++ ' ' :: (ma ++ ':' :: (mi ++ ' ' :: (ino ++ pa)))))
        hp1 hp2 hp3 hp4
      rw [hperm]
      dsimp only
      rw [pSpaces_cons_space, pSpaces_no_ws _
        (by intro c hc
            cases od with
            | nil => exact absurd rfl hod1
            | cons o0 od2 =>
              simp at hc
              subst hc
              exact hex_not_ws _ (hod2 _ (by simp)))]
      rw [pHexNum_append 64 od _ hod1 hod2
        (by intro c hc; simp at hc; subst hc; decide)]
      by_cases hC : hexVal od < 2 ^ 64
      · rw [if_pos hC]
        dsimp only
        rw [pSpaces_cons_space, pSpaces_no_ws _
          (by intro c hc
              cases ma with
              | nil => exact absurd rfl hma1
              | cons m0 ma2 =>
                simp at hc
                subst hc
                exact hex_not_ws _ (hma2 _ (by simp)))]
        rw [pDeviceId_append ma mi _ hma1 hma2 hmi1 hmi2
          (by intro c hc; simp at hc; subst hc; decide)]
        by_cases hD : hexVal ma < 2 ^ 8
        · rw [if_pos hD]
          by_cases hE : hexVal mi < 2 ^ 8
          · exfalso
            rcases hov with h | h | h | h <;> omega
          · rw [if_neg hE]
        · rw [if_neg hD]
      · rw [if_neg hC]
    · rw [if_neg hB]
  · rw [if_neg hA]


/-- C10, witness: the line `0-1000 r--p 0 100:1 5` — textually well-formed
with major device component `100` (value 256 > 0xff) — is dropped. -/
theorem c10_numeric_overflow_drops_line_witness :
    areasNext (Except.ok (String.mk
        (mkMapsLine ['0'] ['1', '0', '0', '0'] 'r' '-' '-' 'p' ['0']
          ['1', '0', '0'] ['1'] ['5'] [])) :: [])
      = (none, []) :=
  c10_numeric_overflow_drops_line ['0'] ['1', '0', '0', '0'] ['0']
    ['1', '0', '0'] ['1'] ['5'] [] 'r' '-' '-' 'p' []
    (by decide) (by decide) (by decide) (by decide) (by decide) (by decide)
    (by decide) (by decide) (by decide) (by decide)
    (by decide) (by decide) (by decide) (by decide)
    (by decide)

end MmapRs
